import Mathlib

/-!
Shallow embedding of the adaptive streaming particle pipeline of
src/apps/particles/particles.cpp: the per-frame render loop with its
double-buffered particle store, the rate-controlled emission stage, the
integration stage and the triangulation-buffer growth management.

The two device-side kernels whose GLSL sources are not part of the sources
(the particle emitter geometry shader and the particle animation geometry
shader; only the billboard shader is present) are modelled from the
specification and say so in their doc comments.

Machine integers are modelled as Nat/Int (all quantities stay far from the
32-bit range in the scenarios the theorems quantify over), and the float
arithmetic of the rate controller, of the buffer growth and of the random
offset is modelled as exact rational arithmetic; the C casts to int on the
nonnegative quantities involved truncate, which is written here as integer
floor division.
-/

attribute [local semireducible] Rat.mul Rat.add Rat.sub Rat.inv

/-- Model of the C library random generator used through srand/rand, as the
C standard portable reference implementation (RAND_MAX = 32767): the hidden
state is advanced by a linear congruence and the returned value is bits
16..30 of the new state. -/
def randStep (seed : ℕ) : ℕ :=
  (seed * 1103515245 + 12345) % 2 ^ 32

/-- Value returned by one call of rand when the hidden state was seed. -/
def randOf (seed : ℕ) : ℕ :=
  randStep seed / 65536 % 32768

/-- Modelled from the spec: a particle as far as the frame loop observes it.
Of the fields {position, velocity, info = (lifeParam, bounceParam)} written
through transform feedback, only lifeParam decides whether the particle
survives integration (spec section 4.4: age-based expiry), so the model
keeps the lifeParam only. -/
structure Particle where
  life : ℚ
  deriving Repr, DecidableEq

/-- Modelled from the spec: the emitter geometry shader
(resources::particles_emitter_gs_150 is not among the sources). Spec
section 4.3: for triangle index i, a particle is emitted iff
(i + offset) mod threshold == 0, initialized with a fresh lifeParam. -/
def emittedParticles (numTriangles : ℕ) (off threshold : ℤ) : List Particle :=
  ((List.range numTriangles).filter
    (fun i => ((i : ℤ) + off) % threshold == 0)).map (fun _ => { life := 0 })

/-- Death threshold for the age of a particle (a configuration value per
spec section 6; the animation shader holding it is not among the sources). -/
def deathAge : ℚ := 1

/-- Modelled from the spec: the particle animation geometry shader
(resources::particles_anim_gs_150 is not among the sources). Spec section
4.4: each input particle is integrated one step; a particle is dropped when
its lifeParam crosses the death threshold, the survivors are emitted in
input order. Position, velocity and the bounce test do not influence
survival. -/
def integrateParticles (dt : ℚ) (ps : List Particle) : List Particle :=
  (ps.map (fun p => { p with life := p.life + dt })).filter
    (fun p => decide (p.life < deathAge))

/-- Mirrors particles.cpp:59, the target amount of particles per second. -/
def particle_flow : ℤ := 4000

/-- Measured emission throughput, particles.cpp:543:
emitter_result / max(1e-5f, dt), with std::max(a, b) returning b when
a < b and a otherwise. -/
def measuredRate (emitter_result : ℕ) (dt : ℚ) : ℚ :=
  (emitter_result : ℚ) / (if (1/100000 : ℚ) < dt then dt else 1/100000)

/-- The threshold controller, particles.cpp:545-550. The casts
static_cast to int of 0.5*threshold and of 10.1*threshold truncate toward
zero, which on the nonnegative thresholds that occur is the floor, written
here as integer division. -/
def adjustThreshold (threshold : ℤ) (emitter_result : ℕ) (dt : ℚ) : ℤ :=
  if measuredRate emitter_result dt < ((particle_flow - 100 : ℤ) : ℚ) then
    max 1 (threshold / 2)
  else if ((particle_flow + 100 : ℤ) : ℚ) < measuredRate emitter_result dt then
    min 100000 (101 * threshold / 10)
  else
    threshold

/-- Growth of the triangulation feedback buffer, particles.cpp:480-491: when
mc_tri_vbo_N < N the buffer storage is reallocated (its old content
discarded) with the new capacity static_cast to GLsizei of 1.1f*N, which
truncates, i.e. the floor of 11*N/10. -/
def growTriangleCapacity (mc_tri_vbo_N : ℤ) (N : ℕ) : ℤ :=
  if mc_tri_vbo_N < (N : ℤ) then 11 * (N : ℤ) / 10 else mc_tri_vbo_N

/-- The per-frame sampling phase, particles.cpp:514: the int cast of
threshold*(rand()/(RAND_MAX+1.0f)), in exact arithmetic the floor of
threshold*r/(RAND_MAX+1) for the value r of rand. -/
def emitterOffset (threshold : ℤ) (r : ℕ) : ℤ :=
  threshold * (r : ℤ) / 32768

/-- The mutable variables of particles.cpp that the render loop reads and
writes: the static threshold (particles.cpp:427), the round-robin pair of
particle buffers with the current index and occupancy (particles.cpp:69-73),
the triangulation buffer capacity (particles.cpp:67) and the hidden state of
the C library random generator. The two slots hold the model particles
written through transform feedback. -/
structure RenderState where
  threshold : ℤ
  particles_vbo_p : ℕ
  particles_vbo_n : ℕ
  mc_tri_vbo_N : ℤ
  seed : ℕ
  slot0 : List Particle
  slot1 : List Particle
  deriving Repr, DecidableEq

/-- Content of particles_vbo[i mod 2]. -/
def RenderState.slot (s : RenderState) (i : ℕ) : List Particle :=
  if i % 2 = 0 then s.slot0 else s.slot1

/-- Overwrite of particles_vbo[i mod 2]. -/
def RenderState.setSlot (s : RenderState) (i : ℕ) (c : List Particle) :
    RenderState :=
  if i % 2 = 0 then { s with slot0 := c } else { s with slot1 := c }

/-- State after init (particles.cpp:363 sets mc_tri_vbo_N = 3*1000,
particles.cpp:383-385 set the particle buffer variables) and after the
static initializer of threshold (particles.cpp:427); the C random generator
starts as if seeded with 1. -/
def initState : RenderState :=
  { threshold := 500, particles_vbo_p := 0, particles_vbo_n := 0,
    mc_tri_vbo_N := 3000, seed := 1, slot0 := [], slot1 := [] }

/-- Per-frame inputs: the elapsed time t and the frame duration dt passed in
by the rendering host, and the vertex count of this frame's triangulation
that HPMCacquireNumberOfVertices reads back from the external surface
extractor (particles.cpp:477). -/
structure FrameInput where
  t : ℚ
  dt : ℚ
  hpmcVertexCount : ℕ
  deriving Repr, DecidableEq

/-- Observable record of one call of render: whether the reset branch fired,
the threshold and buffer indices the frame used, the count passed to the
animation draw call, the random phase, the two counts read back from the
queries, the particles the frame wrote into the inactive slot (survivors
also separately), the byte offset of the transform feedback binding for the
animation stage (particles.cpp:568-571), and the threshold the controller
left behind. -/
structure FrameTrace where
  resetFired : Bool
  thresholdUsed : ℤ
  readSlot : ℕ
  writeSlot : ℕ
  occupancyUsed : ℕ
  off : ℤ
  emitted : ℕ
  survivors : ℕ
  survivorParticles : List Particle
  written : List Particle
  animBindByteOffset : ℕ
  thresholdAfter : ℤ
  deriving Repr, DecidableEq

/-- The reset branch at the head of render (particles.cpp:428-434): when the
elapsed time is below 1e-6 the occupancy is zeroed, the threshold restored
to 500, the current buffer index set to 0 and the random generator reseeded
with srand(42). -/
def applyReset (s : RenderState) (t : ℚ) : RenderState :=
  if t < 1/1000000 then
    { s with particles_vbo_n := 0, threshold := 500,
             particles_vbo_p := 0, seed := 42 }
  else s

/-- Body of one frame of render after the reset branch (particles.cpp
436-601): triangulation build and count readback, triangulation buffer
growth, emission into the head of the inactive slot with count readback,
threshold adjustment, integration of the previous frame's particles appended
after the emitted ones with count readback, then index toggle and occupancy
update (particles.cpp:587-588). The glDrawArrays of the animation stage
processes particles_vbo_n points of the active slot, and GL_TRIANGLES over N
vertices yields N/3 primitives for the emitter. -/
def frameBody (s : RenderState) (inp : FrameInput) : RenderState × FrameTrace :=
  let N := inp.hpmcVertexCount
  let mcN1 := growTriangleCapacity s.mc_tri_vbo_N N
  let seed1 := randStep s.seed
  let off := emitterOffset s.threshold (randOf s.seed)
  let writeSlot := (s.particles_vbo_p + 1) % 2
  let newParticles := emittedParticles (N / 3) off s.threshold
  let emitter_result := newParticles.length
  let threshold1 := adjustThreshold s.threshold emitter_result inp.dt
  let readSlot := s.particles_vbo_p
  let drawn := (s.slot readSlot).take s.particles_vbo_n
  let survivorParticles := integrateParticles inp.dt drawn
  let anim_result := survivorParticles.length
  let written := newParticles ++ survivorParticles
  let s1 := s.setSlot writeSlot written
  ({ s1 with mc_tri_vbo_N := mcN1, seed := seed1, threshold := threshold1,
             particles_vbo_p := writeSlot,
             particles_vbo_n := anim_result + emitter_result },
   { resetFired := false, thresholdUsed := s.threshold, readSlot := readSlot,
     writeSlot := writeSlot, occupancyUsed := s.particles_vbo_n, off := off,
     emitted := emitter_result, survivors := anim_result,
     survivorParticles := survivorParticles, written := written,
     animBindByteOffset := 8 * 4 * emitter_result,
     thresholdAfter := threshold1 })

/-- One call of render (particles.cpp:417-605): the reset branch, then the
frame body; the trace records whether the reset fired. -/
def render (s : RenderState) (inp : FrameInput) : RenderState × FrameTrace :=
  let s0 := applyReset s inp.t
  let r := frameBody s0 inp
  (r.1, { r.2 with resetFired := decide (inp.t < 1/1000000) })

/-- Iterated frames, collecting the traces. -/
def runFrom (s : RenderState) : List FrameInput → RenderState × List FrameTrace
  | [] => (s, [])
  | inp :: rest =>
    let r := render s inp
    let rr := runFrom r.1 rest
    (rr.1, r.2 :: rr.2)

/-- States of the globals that a run of the application can reach at a frame
boundary. -/
inductive Reachable : RenderState → Prop
  | init : Reachable initState
  | step (s : RenderState) (inp : FrameInput) :
      Reachable s → Reachable (render s inp).1

/-- Projection of a trace to the triple the determinism property of spec
section 8 speaks about. -/
def obsTriple (tr : FrameTrace) : ℕ × ℕ × ℤ :=
  (tr.emitted, tr.survivors, tr.thresholdAfter)

/-- Stated from the spec for comparison (section 4.2): threshold growth with
a ceiling, min(thresholdMax, ceil(threshold * 10.1)). -/
def specCeilGrowth (threshold : ℤ) : ℤ :=
  min 100000 ⌈((101 * threshold : ℤ) : ℚ) / 10⌉

/-- Stated from the spec for comparison (section 4.1): capacity growth with
a ceiling, ceil(1.1 × required) when required exceeds the capacity. -/
def specCeilCapacity (mc_tri_vbo_N : ℤ) (N : ℕ) : ℤ :=
  if mc_tri_vbo_N < (N : ℤ) then ⌈((11 * N : ℕ) : ℚ) / 10⌉ else mc_tri_vbo_N

/-- Observational equivalence of two global states: they agree on every
variable the per-frame observables can depend on, namely the threshold, the
buffer index, the occupancy, the random state, and the particles the next
animation draw call will actually read (the first particles_vbo_n elements
of the active slot). The triangulation capacity and the content of the
inactive slot beyond the occupancy are invisible. -/
def ObsEq (s1 s2 : RenderState) : Prop :=
  s1.threshold = s2.threshold ∧
  s1.particles_vbo_p = s2.particles_vbo_p ∧
  s1.particles_vbo_n = s2.particles_vbo_n ∧
  s1.seed = s2.seed ∧
  (s1.slot s1.particles_vbo_p).take s1.particles_vbo_n =
    (s2.slot s2.particles_vbo_p).take s2.particles_vbo_n

lemma adjustThreshold_bounds (t : ℤ) (e : ℕ) (dt : ℚ)
    (h1 : 1 ≤ t) (h2 : t ≤ 100000) :
    1 ≤ adjustThreshold t e dt ∧ adjustThreshold t e dt ≤ 100000 := by
  unfold adjustThreshold
  split
  · exact ⟨le_max_left _ _, max_le (by norm_num) (by omega)⟩
  · split
    · exact ⟨le_min (by norm_num) (by omega), min_le_left _ _⟩
    · exact ⟨h1, h2⟩

lemma growTriangleCapacity_le (cap : ℤ) (N : ℕ) :
    cap ≤ growTriangleCapacity cap N := by
  unfold growTriangleCapacity
  split
  · omega
  · exact le_refl _

lemma emitterOffset_range (t : ℤ) (r : ℕ) (ht : 1 ≤ t) (hr : r ≤ 32767) :
    0 ≤ emitterOffset t r ∧ emitterOffset t r < t := by
  unfold emitterOffset
  have hr2 : (r : ℤ) ≤ 32767 := by exact_mod_cast hr
  constructor
  · exact Int.ediv_nonneg (by positivity) (by norm_num)
  · rw [Int.ediv_lt_iff_lt_mul (by norm_num : (0:ℤ) < 32768)]
    exact mul_lt_mul_of_pos_left (by omega) (by omega)


lemma randOf_le (seed : ℕ) : randOf seed ≤ 32767 := by
  unfold randOf
  omega

lemma integrateParticles_length_le (dt : ℚ) (ps : List Particle) :
    (integrateParticles dt ps).length ≤ ps.length := by
  unfold integrateParticles
  have h := List.length_filter_le
      (fun p : Particle => decide (p.life < deathAge))
      (ps.map fun p => { p with life := p.life + dt })
  simpa using h

lemma applyReset_threshold_bounds (s : RenderState) (t : ℚ)
    (h1 : 1 ≤ s.threshold) (h2 : s.threshold ≤ 100000) :
    1 ≤ (applyReset s t).threshold ∧ (applyReset s t).threshold ≤ 100000 := by
  unfold applyReset
  split
  · exact ⟨by norm_num, by norm_num⟩
  · exact ⟨h1, h2⟩

lemma render_threshold_eq (s : RenderState) (inp : FrameInput) :
    (render s inp).1.threshold =
      adjustThreshold (applyReset s inp.t).threshold
        (emittedParticles (inp.hpmcVertexCount / 3)
          (emitterOffset (applyReset s inp.t).threshold
            (randOf (applyReset s inp.t).seed))
          (applyReset s inp.t).threshold).length
        inp.dt := rfl

lemma render_threshold_bounds (s : RenderState) (inp : FrameInput)
    (h1 : 1 ≤ s.threshold) (h2 : s.threshold ≤ 100000) :
    1 ≤ (render s inp).1.threshold ∧ (render s inp).1.threshold ≤ 100000 := by
  rw [render_threshold_eq]
  have hb := applyReset_threshold_bounds s inp.t h1 h2
  exact adjustThreshold_bounds _ _ _ hb.1 hb.2

/-- Claim C4: for every frame, with rate = emittedCount / max(dt, 1e-5): if
the rate is below F - ε = 3900 the next threshold equals
max(1, floor(threshold / 2)); if F - ε ≤ rate ≤ F + ε the threshold is
unchanged; in particular threshold 500 with 10 particles emitted at
dt = 1/60 (rate 600 < 3900) gives next threshold 250. -/
theorem controllerHalve_and_band (t : ℤ) (e : ℕ) (dt : ℚ) :
    (measuredRate e dt < ((particle_flow - 100 : ℤ) : ℚ) →
      adjustThreshold t e dt = max 1 (t / 2)) ∧
    (((particle_flow - 100 : ℤ) : ℚ) ≤ measuredRate e dt →
      measuredRate e dt ≤ ((particle_flow + 100 : ℤ) : ℚ) →
      adjustThreshold t e dt = t) ∧
    adjustThreshold 500 10 (1/60) = 250 := by
  refine ⟨fun h => ?_, fun h1 h2 => ?_, by decide⟩
  · simp only [adjustThreshold, if_pos h]
  · simp only [adjustThreshold, if_neg (not_lt.mpr h1), if_neg (not_lt.mpr h2)]

theorem controllerHalve_and_band_witness :
    adjustThreshold 77 10 (1/60) = max 1 (77 / 2) :=
  (controllerHalve_and_band 77 10 (1/60)).1 (by decide)

/-- Claim C3 as stated is false: in a frame with threshold 1, 500 emitted
particles and dt = 1/60 the measured rate 30000 exceeds F + ε = 4100, and
the code truncates 10.1*1 to 10, while min(thresholdMax,
ceil(threshold*10.1)) = 11. -/
theorem controllerGrowthCeil_counterexample :
    ((particle_flow + 100 : ℤ) : ℚ) < measuredRate 500 (1/60) ∧
    adjustThreshold 1 500 (1/60) = 10 ∧ specCeilGrowth 1 = 11 ∧
    adjustThreshold 1 500 (1/60) ≠ specCeilGrowth 1 := by
  have hc : specCeilGrowth 1 = 11 := by
    unfold specCeilGrowth
    have hceil : ⌈((101 * 1 : ℤ) : ℚ) / 10⌉ = 11 := by
      rw [Int.ceil_eq_iff]
      norm_num
    rw [hceil]
    decide
  refine ⟨by decide, by decide, hc, by rw [hc]; decide⟩

/-- Claim C3 amended: in every frame whose measured rate exceeds F + ε =
4100 the next threshold equals min(thresholdMax, floor(threshold * 10.1))
(the int cast truncates, instead of the ceiling the claim states); the
particular instance of the claim is unaffected: from threshold 250 with 500
emitted particles at dt = 1/60 the next threshold is 2525. -/
theorem controllerGrowth_floor (t : ℤ) (e : ℕ) (dt : ℚ)
    (h : ((particle_flow + 100 : ℤ) : ℚ) < measuredRate e dt) :
    adjustThreshold t e dt = min 100000 (101 * t / 10) ∧
    adjustThreshold 250 500 (1/60) = 2525 := by
  constructor
  · have hge : ¬ measuredRate e dt < ((particle_flow - 100 : ℤ) : ℚ) := by
      simp only [particle_flow] at h ⊢
      push_cast at h ⊢
      linarith
    simp only [adjustThreshold, if_neg hge, if_pos h]
  · decide

theorem controllerGrowth_floor_witness :
    adjustThreshold 250 500 (1/60) = min 100000 (101 * 250 / 10) :=
  (controllerGrowth_floor 250 500 (1/60) (by decide)).1

/-- Claim C5: at every reachable frame boundary (after initialization and
after every frame, whose controller update produced the stored threshold),
and also right after the reset branch, the emission threshold satisfies
1 ≤ threshold ≤ thresholdMax = 100000. -/
theorem threshold_range_invariant (s : RenderState) (hs : Reachable s)
    (t0 : ℚ) :
    (1 ≤ s.threshold ∧ s.threshold ≤ 100000) ∧
    (1 ≤ (applyReset s t0).threshold ∧
      (applyReset s t0).threshold ≤ 100000) := by
  have main : 1 ≤ s.threshold ∧ s.threshold ≤ 100000 := by
    induction hs with
    | init => exact ⟨by decide, by decide⟩
    | step s1 inp h1 ih => exact render_threshold_bounds s1 inp ih.1 ih.2
  exact ⟨main, applyReset_threshold_bounds s t0 main.1 main.2⟩

theorem threshold_range_invariant_witness :
    (1 ≤ initState.threshold ∧ initState.threshold ≤ 100000) ∧
    (1 ≤ (applyReset initState 0).threshold ∧
      (applyReset initState 0).threshold ≤ 100000) :=
  threshold_range_invariant initState Reachable.init 0

/-- Claim C6 as stated is false: with capacity 3000 and 3001 extracted
vertices the code reallocates to floor(1.1*3001) = 3301, not
ceil(1.1*3001) = 3302. -/
theorem capacityGrowthCeil_counterexample :
    growTriangleCapacity 3000 3001 = 3301 ∧
    specCeilCapacity 3000 3001 = 3302 ∧
    growTriangleCapacity 3000 3001 ≠ specCeilCapacity 3000 3001 := by
  have hc : specCeilCapacity 3000 3001 = 3302 := by
    unfold specCeilCapacity
    rw [if_pos (by norm_num)]
    have hceil : ⌈((11 * 3001 : ℕ) : ℚ) / 10⌉ = 3302 := by
      rw [Int.ceil_eq_iff]
      norm_num
    rw [hceil]
  exact ⟨by decide, hc, by rw [hc]; decide⟩

/-- Claim C6 amended: when the extracted vertex count N exceeds the current
capacity the buffer is reallocated to capacity floor(1.1 × N) (the GLsizei
cast truncates, instead of the ceiling the claim states), otherwise the
capacity is unchanged; the capacity never decreases, neither as a function
nor across a frame of the render loop; the particular instance of the claim
is unaffected: capacity 3000 with N = 3500 gives 3850. -/
theorem capacityGrowth_floor (cap : ℤ) (N : ℕ) :
    (cap < (N : ℤ) → growTriangleCapacity cap N = 11 * (N : ℤ) / 10) ∧
    (¬ cap < (N : ℤ) → growTriangleCapacity cap N = cap) ∧
    cap ≤ growTriangleCapacity cap N ∧
    (∀ (s : RenderState) (inp : FrameInput),
      s.mc_tri_vbo_N ≤ (render s inp).1.mc_tri_vbo_N) ∧
    growTriangleCapacity 3000 3500 = 3850 := by
  refine ⟨fun h => ?_, fun h => ?_, growTriangleCapacity_le cap N, ?_,
    by decide⟩
  · simp only [growTriangleCapacity, if_pos h]
  · simp only [growTriangleCapacity, if_neg h]
  · intro s inp
    have hrw : (render s inp).1.mc_tri_vbo_N =
        growTriangleCapacity (applyReset s inp.t).mc_tri_vbo_N
          inp.hpmcVertexCount := rfl
    have hA : (applyReset s inp.t).mc_tri_vbo_N = s.mc_tri_vbo_N := by
      unfold applyReset
      split <;> rfl
    rw [hrw, hA]
    exact growTriangleCapacity_le _ _

theorem capacityGrowth_floor_witness :
    growTriangleCapacity 3000 3500 = 11 * ((3500 : ℕ) : ℤ) / 10 :=
  (capacityGrowth_floor 3000 3500).1 (by decide)

/-- Claim C9: in every frame, when the stored threshold is at least 1 the
random offset handed to the emitter satisfies 0 ≤ offset < threshold, for
every value the random source could return (any r ≤ RAND_MAX = 32767), and
the offset the frame actually draws is obtained from such an r at the
threshold the frame uses. -/
theorem randomOffset_in_range (s : RenderState) (inp : FrameInput)
    (h : 1 ≤ s.threshold) :
    (∀ r : ℕ, r ≤ 32767 →
      0 ≤ emitterOffset (applyReset s inp.t).threshold r ∧
      emitterOffset (applyReset s inp.t).threshold r <
        (applyReset s inp.t).threshold) ∧
    (render s inp).2.off =
      emitterOffset (applyReset s inp.t).threshold
        (randOf (applyReset s inp.t).seed) ∧
    randOf (applyReset s inp.t).seed ≤ 32767 ∧
    (render s inp).2.thresholdUsed = (applyReset s inp.t).threshold := by
  have ht : 1 ≤ (applyReset s inp.t).threshold := by
    unfold applyReset
    split
    · norm_num
    · exact h
  exact ⟨fun r hr => emitterOffset_range _ r ht hr, rfl, randOf_le _, rfl⟩

theorem randomOffset_in_range_witness :
    0 ≤ (render initState { t := 1, dt := 1/60, hpmcVertexCount := 0 }).2.off ∧
    (render initState { t := 1, dt := 1/60, hpmcVertexCount := 0 }).2.off <
      (render initState
        { t := 1, dt := 1/60, hpmcVertexCount := 0 }).2.thresholdUsed := by
  obtain ⟨hall, hoff, hr, hthr⟩ := randomOffset_in_range initState
    { t := 1, dt := 1/60, hpmcVertexCount := 0 } (by decide)
  rw [hoff, hthr]
  exact hall _ hr

lemma applyReset_reset (s : RenderState) (t : ℚ) (h : t < 1/1000000) :
    applyReset s t = { s with particles_vbo_n := 0, threshold := 500,
                              particles_vbo_p := 0, seed := 42 } := by
  unfold applyReset
  rw [if_pos h]

lemma applyReset_id (s : RenderState) (t : ℚ) (h : ¬ t < 1/1000000) :
    applyReset s t = s := by
  unfold applyReset
  rw [if_neg h]

lemma integrateParticles_nil (dt : ℚ) : integrateParticles dt [] = [] := rfl

lemma render_reset_trace (s : RenderState) (inp : FrameInput)
    (h : inp.t < 1/1000000) :
    (render s inp).2 =
      { resetFired := true, thresholdUsed := 500, readSlot := 0,
        writeSlot := 1, occupancyUsed := 0,
        off := emitterOffset 500 (randOf 42),
        emitted := (emittedParticles (inp.hpmcVertexCount / 3)
          (emitterOffset 500 (randOf 42)) 500).length,
        survivors := 0, survivorParticles := [],
        written := emittedParticles (inp.hpmcVertexCount / 3)
          (emitterOffset 500 (randOf 42)) 500,
        animBindByteOffset := 8 * 4 * (emittedParticles
          (inp.hpmcVertexCount / 3) (emitterOffset 500 (randOf 42)) 500).length,
        thresholdAfter := adjustThreshold 500 (emittedParticles
          (inp.hpmcVertexCount / 3) (emitterOffset 500 (randOf 42))
          500).length inp.dt } := by
  simp only [render, frameBody, applyReset_reset s inp.t h]
  simp [RenderState.slot, integrateParticles_nil]
  simpa using h

/-- Claim C7: in every frame in which the reset event fires (elapsed time
below 1e-6), the frame processes from occupancy 0 and threshold 500, the
sampler is reseeded to the fixed seed 42 (the offset it draws is the one
seed 42 produces, and the state carries the advanced seed of 42 out of the
frame), and the reset is atomic: two arbitrary prior states produce the very
same frame observables, so no frame can see a partially reset state. -/
theorem reset_atomic (s1 s2 : RenderState) (inp : FrameInput)
    (h : inp.t < 1/1000000) :
    (render s1 inp).2.occupancyUsed = 0 ∧
    (render s1 inp).2.thresholdUsed = 500 ∧
    (render s1 inp).2.off = emitterOffset 500 (randOf 42) ∧
    (render s1 inp).1.seed = randStep 42 ∧
    (render s1 inp).2 = (render s2 inp).2 := by
  have h1 := render_reset_trace s1 inp h
  have h2 := render_reset_trace s2 inp h
  refine ⟨by rw [h1], by rw [h1], by rw [h1], ?_, h1.trans h2.symm⟩
  have hseed : (render s1 inp).1.seed = randStep (applyReset s1 inp.t).seed :=
    rfl
  rw [hseed, applyReset_reset s1 inp.t h]

theorem reset_atomic_witness :
    (render initState { t := 0, dt := 1/60, hpmcVertexCount := 630 }).2 =
      (render { threshold := 7, particles_vbo_p := 1, particles_vbo_n := 3,
                mc_tri_vbo_N := 0, seed := 9,
                slot0 := [{ life := 1/2 }], slot1 := [] }
        { t := 0, dt := 1/60, hpmcVertexCount := 630 }).2 :=
  (reset_atomic initState
    { threshold := 7, particles_vbo_p := 1, particles_vbo_n := 3,
      mc_tri_vbo_N := 0, seed := 9,
      slot0 := [{ life := 1/2 }], slot1 := [] }
    { t := 0, dt := 1/60, hpmcVertexCount := 630 } (by decide)).2.2.2.2

/-- Claim C10: when the reset event fires, the active particle-slot index is
also reset to 0 (particles.cpp:431, a fact the spec's reset list omits), so
the post-reset frame reads slot 0 and writes into slot 1. -/
theorem reset_slot_zero (s : RenderState) (inp : FrameInput)
    (h : inp.t < 1/1000000) :
    (applyReset s inp.t).particles_vbo_p = 0 ∧
    (render s inp).2.readSlot = 0 ∧ (render s inp).2.writeSlot = 1 := by
  have h1 := render_reset_trace s inp h
  refine ⟨?_, by rw [h1], by rw [h1]⟩
  rw [applyReset_reset s inp.t h]

theorem reset_slot_zero_witness :
    (applyReset { threshold := 7, particles_vbo_p := 1, particles_vbo_n := 3,
                  mc_tri_vbo_N := 0, seed := 9, slot0 := [],
                  slot1 := [{ life := 1/3 }] }
      (FrameInput.t { t := 0, dt := 1/60, hpmcVertexCount := 0 })).particles_vbo_p
      = 0 ∧
    (render { threshold := 7, particles_vbo_p := 1, particles_vbo_n := 3,
              mc_tri_vbo_N := 0, seed := 9, slot0 := [],
              slot1 := [{ life := 1/3 }] }
      { t := 0, dt := 1/60, hpmcVertexCount := 0 }).2.readSlot = 0 ∧
    (render { threshold := 7, particles_vbo_p := 1, particles_vbo_n := 3,
              mc_tri_vbo_N := 0, seed := 9, slot0 := [],
              slot1 := [{ life := 1/3 }] }
      { t := 0, dt := 1/60, hpmcVertexCount := 0 }).2.writeSlot = 1 :=
  reset_slot_zero
    { threshold := 7, particles_vbo_p := 1, particles_vbo_n := 3,
      mc_tri_vbo_N := 0, seed := 9, slot0 := [],
      slot1 := [{ life := 1/3 }] }
    { t := 0, dt := 1/60, hpmcVertexCount := 0 } (by decide)

lemma particles_vbo_p_lt_two (s : RenderState) (hs : Reachable s) :
    s.particles_vbo_p < 2 := by
  induction hs with
  | init => decide
  | step s1 inp h1 ih =>
    have hrw : (render s1 inp).1.particles_vbo_p =
        ((applyReset s1 inp.t).particles_vbo_p + 1) % 2 := rfl
    rw [hrw]
    omega

/-- Claim C2 as stated is false on reset frames: starting from the
initialized state, a first frame with elapsed time 0 writes slot 1, but when
the host loops the animation and the next frame again has elapsed time 0,
the reset forces the read slot back to 0, so frame k+1 does not read the
slot frame k wrote. -/
theorem double_buffer_counterexample :
    (render initState
      { t := 0, dt := 1/60, hpmcVertexCount := 0 }).2.writeSlot = 1 ∧
    (render (render initState { t := 0, dt := 1/60, hpmcVertexCount := 0 }).1
      { t := 0, dt := 1/60, hpmcVertexCount := 0 }).2.readSlot = 0 ∧
    (render (render initState { t := 0, dt := 1/60, hpmcVertexCount := 0 }).1
        { t := 0, dt := 1/60, hpmcVertexCount := 0 }).2.readSlot ≠
      (render initState
        { t := 0, dt := 1/60, hpmcVertexCount := 0 }).2.writeSlot :=
  ⟨by decide, by decide, by decide⟩

/-- Claim C2 amended: when the reset event does not fire in frame k+1, the
slot the integration stage reads in frame k+1 equals the slot written in
frame k; unconditionally, in every frame from a reachable state the slot
read and the slot written are distinct, both indices lie in {0,1}, and the
active index toggles to the just-written slot when the frame completes.
(Across a reset frame the read slot is forced to 0, which departs from the
claim exactly when the previous frame wrote slot 1.) -/
theorem double_buffer_invariant (s : RenderState) (hs : Reachable s)
    (inp1 inp2 : FrameInput) (h : ¬ inp2.t < 1/1000000) :
    (render (render s inp1).1 inp2).2.readSlot =
      (render s inp1).2.writeSlot ∧
    (render s inp1).2.readSlot ≠ (render s inp1).2.writeSlot ∧
    (render s inp1).2.readSlot < 2 ∧ (render s inp1).2.writeSlot < 2 ∧
    (render s inp1).1.particles_vbo_p = (render s inp1).2.writeSlot := by
  have hread1 : (render s inp1).2.readSlot =
      (applyReset s inp1.t).particles_vbo_p := rfl
  have hwrite1 : (render s inp1).2.writeSlot =
      ((applyReset s inp1.t).particles_vbo_p + 1) % 2 := rfl
  have hp1 : (render s inp1).1.particles_vbo_p =
      ((applyReset s inp1.t).particles_vbo_p + 1) % 2 := rfl
  have hread2 : (render (render s inp1).1 inp2).2.readSlot =
      (applyReset (render s inp1).1 inp2.t).particles_vbo_p := rfl
  have hplt : (applyReset s inp1.t).particles_vbo_p < 2 := by
    unfold applyReset
    split
    · show 0 < 2
      omega
    · exact particles_vbo_p_lt_two s hs
  refine ⟨?_, ?_, ?_, ?_, hp1.trans hwrite1.symm⟩
  · rw [hread2, applyReset_id _ _ h]
    exact hp1.trans hwrite1.symm
  · rw [hread1, hwrite1]
    omega
  · rw [hread1]
    exact hplt
  · rw [hwrite1]
    omega

theorem double_buffer_invariant_witness :
    (render (render initState { t := 5, dt := 1/60, hpmcVertexCount := 0 }).1
        { t := 6, dt := 1/60, hpmcVertexCount := 0 }).2.readSlot =
      (render initState
        { t := 5, dt := 1/60, hpmcVertexCount := 0 }).2.writeSlot :=
  (double_buffer_invariant initState Reachable.init
    { t := 5, dt := 1/60, hpmcVertexCount := 0 }
    { t := 6, dt := 1/60, hpmcVertexCount := 0 } (by decide)).1

lemma slot_setSlot (s : RenderState) (i : ℕ) (c : List Particle) :
    (s.setSlot i c).slot i = c := by
  unfold RenderState.slot RenderState.setSlot
  split <;> simp_all

lemma slot_after_frame (s : RenderState) (inp : FrameInput) :
    ((render s inp).1).slot ((render s inp).2.writeSlot) =
      (render s inp).2.written := by
  have h1 : ((render s inp).1).slot ((render s inp).2.writeSlot) =
      ((applyReset s inp.t).setSlot
        (((applyReset s inp.t).particles_vbo_p + 1) % 2)
        ((render s inp).2.written)).slot
        (((applyReset s inp.t).particles_vbo_p + 1) % 2) := rfl
  rw [h1]
  exact slot_setSlot _ _ _

lemma written_drop (s : RenderState) (inp : FrameInput) :
    ((render s inp).2.written).drop ((render s inp).2.emitted) =
      (render s inp).2.survivorParticles := by
  simp only [render, frameBody]
  exact List.drop_left _ _

lemma survivors_le_occupancy (s : RenderState) (inp : FrameInput) :
    (render s inp).2.survivors ≤ (render s inp).2.occupancyUsed := by
  have h1 : (render s inp).2.survivors =
      (integrateParticles inp.dt
        (((applyReset s inp.t).slot
          (applyReset s inp.t).particles_vbo_p).take
          (applyReset s inp.t).particles_vbo_n)).length := rfl
  have h2 : (render s inp).2.occupancyUsed =
      (applyReset s inp.t).particles_vbo_n := rfl
  rw [h1, h2]
  calc (integrateParticles inp.dt
        (((applyReset s inp.t).slot
          (applyReset s inp.t).particles_vbo_p).take
          (applyReset s inp.t).particles_vbo_n)).length
      ≤ (((applyReset s inp.t).slot
          (applyReset s inp.t).particles_vbo_p).take
          (applyReset s inp.t).particles_vbo_n).length :=
        integrateParticles_length_le _ _
    _ ≤ (applyReset s inp.t).particles_vbo_n := List.length_take_le _ _

/-- Claim C1 as stated is false on reset frames: starting from the
initialized state with elapsed time 0, a frame over a 630-vertex
triangulation emits one particle (threshold 500, seed 42 gives offset 291,
and triangle 209 of the 210 matches) with no survivors, but the host loops
the animation and the next frame again has elapsed time 0, so its reset
zeroes the occupancy: frame k+1 processes occupancy 0, not
emittedCount_k + survivorCount_k = 1. -/
theorem occupancy_recurrence_counterexample :
    (render initState
        { t := 0, dt := 1/60, hpmcVertexCount := 630 }).2.emitted +
      (render initState
        { t := 0, dt := 1/60, hpmcVertexCount := 630 }).2.survivors = 1 ∧
    (render (render initState
        { t := 0, dt := 1/60, hpmcVertexCount := 630 }).1
      { t := 0, dt := 1/60, hpmcVertexCount := 0 }).2.occupancyUsed = 0 ∧
    (render (render initState
        { t := 0, dt := 1/60, hpmcVertexCount := 630 }).1
        { t := 0, dt := 1/60, hpmcVertexCount := 0 }).2.occupancyUsed ≠
      (render initState
          { t := 0, dt := 1/60, hpmcVertexCount := 630 }).2.emitted +
        (render initState
          { t := 0, dt := 1/60, hpmcVertexCount := 630 }).2.survivors :=
  ⟨by decide, by decide, by decide⟩

/-- Claim C1 amended: when the reset event does not fire in frame k+1, the
occupancy frame k+1 uses equals emittedCount_k + survivorCount_k; in every
frame the animation stage's feedback binding starts at byte offset
8*sizeof(GLfloat)*emittedCount, i.e. element offset emittedCount, so the
survivors land in the written slot immediately after the emitted particles
(the written slot content is the emitted particles followed by the
survivors); and survivorCount never exceeds the occupancy the frame
processed. (When the reset fires in frame k+1 the occupancy it uses is
forced to 0 instead.) -/
theorem occupancy_recurrence (s : RenderState) (inp1 inp2 : FrameInput)
    (h : ¬ inp2.t < 1/1000000) :
    (render (render s inp1).1 inp2).2.occupancyUsed =
      (render s inp1).2.emitted + (render s inp1).2.survivors ∧
    (render s inp1).2.animBindByteOffset =
      8 * 4 * (render s inp1).2.emitted ∧
    ((render s inp1).1).slot ((render s inp1).2.writeSlot) =
      (render s inp1).2.written ∧
    ((render s inp1).2.written).drop ((render s inp1).2.emitted) =
      (render s inp1).2.survivorParticles ∧
    (render s inp1).2.survivors ≤ (render s inp1).2.occupancyUsed := by
  refine ⟨?_, rfl, slot_after_frame s inp1, written_drop s inp1,
    survivors_le_occupancy s inp1⟩
  have h2 : (render (render s inp1).1 inp2).2.occupancyUsed =
      (applyReset (render s inp1).1 inp2.t).particles_vbo_n := rfl
  rw [h2, applyReset_id _ _ h]
  have h3 : (render s inp1).1.particles_vbo_n =
      (render s inp1).2.survivors + (render s inp1).2.emitted := rfl
  rw [h3]
  omega

theorem occupancy_recurrence_witness :
    (render (render initState { t := 0, dt := 1/60, hpmcVertexCount := 630 }).1
        { t := 9, dt := 1/60, hpmcVertexCount := 0 }).2.occupancyUsed =
      (render initState
          { t := 0, dt := 1/60, hpmcVertexCount := 630 }).2.emitted +
        (render initState
          { t := 0, dt := 1/60, hpmcVertexCount := 630 }).2.survivors :=
  (occupancy_recurrence initState
    { t := 0, dt := 1/60, hpmcVertexCount := 630 }
    { t := 9, dt := 1/60, hpmcVertexCount := 0 } (by decide)).1

lemma frameBody_trace_congr (s1 s2 : RenderState) (inp : FrameInput)
    (ht : s1.threshold = s2.threshold)
    (hp : s1.particles_vbo_p = s2.particles_vbo_p)
    (hn : s1.particles_vbo_n = s2.particles_vbo_n)
    (hsd : s1.seed = s2.seed)
    (hc : (s1.slot s1.particles_vbo_p).take s1.particles_vbo_n =
          (s2.slot s2.particles_vbo_p).take s2.particles_vbo_n) :
    (frameBody s1 inp).2 = (frameBody s2 inp).2 := by
  simp only [frameBody]
  rw [hc, ht, hp, hn, hsd]

lemma frameBody_state_congr (s1 s2 : RenderState) (inp : FrameInput)
    (ht : s1.threshold = s2.threshold)
    (hp : s1.particles_vbo_p = s2.particles_vbo_p)
    (_hn : s1.particles_vbo_n = s2.particles_vbo_n)
    (hsd : s1.seed = s2.seed)
    (hc : (s1.slot s1.particles_vbo_p).take s1.particles_vbo_n =
          (s2.slot s2.particles_vbo_p).take s2.particles_vbo_n) :
    ObsEq (frameBody s1 inp).1 (frameBody s2 inp).1 := by
  unfold ObsEq
  have e1 : (frameBody s1 inp).1.particles_vbo_n =
      (integrateParticles inp.dt ((s1.slot s1.particles_vbo_p).take
        s1.particles_vbo_n)).length +
      (emittedParticles (inp.hpmcVertexCount / 3)
        (emitterOffset s1.threshold (randOf s1.seed)) s1.threshold).length :=
    rfl
  have e2 : (frameBody s2 inp).1.particles_vbo_n =
      (integrateParticles inp.dt ((s2.slot s2.particles_vbo_p).take
        s2.particles_vbo_n)).length +
      (emittedParticles (inp.hpmcVertexCount / 3)
        (emitterOffset s2.threshold (randOf s2.seed)) s2.threshold).length :=
    rfl
  refine ⟨?_, ?_, ?_, ?_, ?_⟩
  · show adjustThreshold s1.threshold _ inp.dt =
      adjustThreshold s2.threshold _ inp.dt
    rw [ht, hsd]
  · show (s1.particles_vbo_p + 1) % 2 = (s2.particles_vbo_p + 1) % 2
    rw [hp]
  · rw [e1, e2, hc, ht, hsd]
  · show randStep s1.seed = randStep s2.seed
    rw [hsd]
  · show ((s1.setSlot ((s1.particles_vbo_p + 1) % 2)
        (emittedParticles (inp.hpmcVertexCount / 3)
          (emitterOffset s1.threshold (randOf s1.seed)) s1.threshold ++
         integrateParticles inp.dt ((s1.slot s1.particles_vbo_p).take
          s1.particles_vbo_n))).slot ((s1.particles_vbo_p + 1) % 2)).take
        ((frameBody s1 inp).1.particles_vbo_n) =
      ((s2.setSlot ((s2.particles_vbo_p + 1) % 2)
        (emittedParticles (inp.hpmcVertexCount / 3)
          (emitterOffset s2.threshold (randOf s2.seed)) s2.threshold ++
         integrateParticles inp.dt ((s2.slot s2.particles_vbo_p).take
          s2.particles_vbo_n))).slot ((s2.particles_vbo_p + 1) % 2)).take
        ((frameBody s2 inp).1.particles_vbo_n)
    rw [slot_setSlot, slot_setSlot, e1, e2, hc, ht, hsd]

lemma applyReset_obsEq_of_reset (s1 s2 : RenderState) (t : ℚ)
    (h : t < 1/1000000) : ObsEq (applyReset s1 t) (applyReset s2 t) := by
  rw [applyReset_reset s1 t h, applyReset_reset s2 t h]
  exact ⟨rfl, rfl, rfl, rfl, by simp⟩

lemma applyReset_obsEq (s1 s2 : RenderState) (t : ℚ) (hobs : ObsEq s1 s2) :
    ObsEq (applyReset s1 t) (applyReset s2 t) := by
  by_cases hres : t < 1/1000000
  · exact applyReset_obsEq_of_reset s1 s2 t hres
  · rw [applyReset_id s1 t hres, applyReset_id s2 t hres]
    exact hobs

lemma render_obsEq (s1 s2 : RenderState) (inp : FrameInput)
    (hobs : ObsEq s1 s2) :
    (render s1 inp).2 = (render s2 inp).2 ∧
    ObsEq (render s1 inp).1 (render s2 inp).1 := by
  obtain ⟨ht, hp, hn, hsd, hc⟩ := applyReset_obsEq s1 s2 inp.t hobs
  have htr := frameBody_trace_congr (applyReset s1 inp.t)
    (applyReset s2 inp.t) inp ht hp hn hsd hc
  have hst := frameBody_state_congr (applyReset s1 inp.t)
    (applyReset s2 inp.t) inp ht hp hn hsd hc
  constructor
  · show ({ (frameBody (applyReset s1 inp.t) inp).2 with
        resetFired := decide (inp.t < 1/1000000) } : FrameTrace) =
      { (frameBody (applyReset s2 inp.t) inp).2 with
        resetFired := decide (inp.t < 1/1000000) }
    rw [htr]
  · exact hst

lemma runFrom_obsEq (ins : List FrameInput) (s1 s2 : RenderState)
    (hobs : ObsEq s1 s2) :
    (runFrom s1 ins).2 = (runFrom s2 ins).2 := by
  induction ins generalizing s1 s2 with
  | nil => rfl
  | cons inp rest ih =>
    obtain ⟨htr, hst⟩ := render_obsEq s1 s2 inp hobs
    show (render s1 inp).2 :: (runFrom (render s1 inp).1 rest).2 =
      (render s2 inp).2 :: (runFrom (render s2 inp).1 rest).2
    rw [htr, ih _ _ hst]

/-- Claim C8: determinism under reset. Two runs started at a frame in which
the reset event fires (elapsed time below 1e-6), from arbitrary prior
states, fed the identical sequence of frame inputs (elapsed times, dt
values and extracted vertex counts; the configuration constants are shared),
produce identical sequences of (emittedCount, survivorCount, threshold)
triples, one per frame. -/
theorem determinism_after_reset (s1 s2 : RenderState) (inp : FrameInput)
    (ins : List FrameInput) (h : inp.t < 1/1000000) :
    ((runFrom s1 (inp :: ins)).2).map obsTriple =
    ((runFrom s2 (inp :: ins)).2).map obsTriple := by
  obtain ⟨ht, hp, hn, hsd, hc⟩ := applyReset_obsEq_of_reset s1 s2 inp.t h
  have htr := frameBody_trace_congr (applyReset s1 inp.t)
    (applyReset s2 inp.t) inp ht hp hn hsd hc
  have hst := frameBody_state_congr (applyReset s1 inp.t)
    (applyReset s2 inp.t) inp ht hp hn hsd hc
  have hfull : (runFrom s1 (inp :: ins)).2 = (runFrom s2 (inp :: ins)).2 := by
    show (render s1 inp).2 :: (runFrom (render s1 inp).1 ins).2 =
      (render s2 inp).2 :: (runFrom (render s2 inp).1 ins).2
    have h1 : (render s1 inp).2 = (render s2 inp).2 := by
      show ({ (frameBody (applyReset s1 inp.t) inp).2 with
          resetFired := decide (inp.t < 1/1000000) } : FrameTrace) =
        { (frameBody (applyReset s2 inp.t) inp).2 with
          resetFired := decide (inp.t < 1/1000000) }
      rw [htr]
    rw [h1, runFrom_obsEq ins (render s1 inp).1 (render s2 inp).1 hst]
  rw [hfull]

theorem determinism_after_reset_witness :
    ((runFrom initState
        [{ t := 0, dt := 1/60, hpmcVertexCount := 630 },
         { t := 1, dt := 1/60, hpmcVertexCount := 30 }]).2).map obsTriple =
    ((runFrom { threshold := 7, particles_vbo_p := 1, particles_vbo_n := 3,
                mc_tri_vbo_N := 0, seed := 9, slot0 := [{ life := 1/2 }],
                slot1 := [] }
        [{ t := 0, dt := 1/60, hpmcVertexCount := 630 },
         { t := 1, dt := 1/60, hpmcVertexCount := 30 }]).2).map obsTriple :=
  determinism_after_reset initState
    { threshold := 7, particles_vbo_p := 1, particles_vbo_n := 3,
      mc_tri_vbo_N := 0, seed := 9, slot0 := [{ life := 1/2 }],
      slot1 := [] }
    { t := 0, dt := 1/60, hpmcVertexCount := 630 }
    [{ t := 1, dt := 1/60, hpmcVertexCount := 30 }] (by decide)
